import Mathlib

/-!
Verification of the geoloc utility (`src/geoloc_util.py`).

The program resolves US location strings (city/state text or 5-digit zip
codes) through a geocoding HTTP API and prints one formatted line per input.
We give a shallow embedding of its functions and prove the specified
properties about them.

Modelling conventions:
* A Python dict decoded from JSON is an association list `Dict` from string
  keys to `Value`s; `dict.get`, `d[k]` and `'k' in d` become `Dict.getD`,
  `Dict.get?` and `Dict.containsKey`.
* A JSON scalar is a `Value`: a string, or a number carried by the text that
  Python's `str()` renders it as (the program never computes with numbers,
  it only interpolates them into strings and truth-tests them; a zero
  number renders as "0", "0.0" or "-0.0").
* The HTTP world is an explicit `HttpOutcome` argument: the transport either
  raises (timeout, connection error, other request exception) or yields a
  response with a status code and a decoded JSON body.  `requests`'
  `raise_for_status` raises exactly for status codes in [400, 600).
* Strings are modelled on their ASCII fragment: `py_strip` strips the ASCII
  whitespace characters and `py_isdigit` is Python's `str.isdigit`
  restricted to ASCII, where it coincides with the decimal-digit test.
* A function whose Python original can raise an uncaught exception returns
  an `Option`, with `none` for the crash; this only happens for upstream
  bodies outside the documented wire contract (a non-list body on the
  "direct" endpoint or a non-object body on "zip") and for formatting a
  record that lacks a required field.
-/

/-- A JSON scalar value as the program observes it: a string, or a number
identified by its Python `str()` rendering. -/
inductive Value where
  | vStr (s : String)
  | vNum (render : String)
deriving DecidableEq, Repr

/-- Python `str()` of a value: a string is itself, a number its rendering. -/
def Value.toStr : Value → String
  | .vStr s => s
  | .vNum r => r

/-- Python truthiness of a value: a string is truthy iff non-empty, a number
iff non-zero (a zero renders as "0", "0.0" or "-0.0"). -/
def Value.truthy : Value → Bool
  | .vStr s => s != ""
  | .vNum r => !(r == "0" || r == "0.0" || r == "-0.0")

/-- A decoded JSON object / Python dict: an association list with the first
binding of a key the visible one (Python dict keys are unique). -/
abbrev Dict := List (String × Value)

/-- `d.get(k)` with no default: the value bound to `k`, if any. -/
def Dict.get? (d : Dict) (k : String) : Option Value :=
  (d.find? (fun p => p.1 == k)).map (fun p => p.2)

/-- `d.get(k, default)`. -/
def Dict.getD (d : Dict) (k : String) (default : Value) : Value :=
  (Dict.get? d k).getD default

/-- `k in d`. -/
def Dict.containsKey (d : Dict) (k : String) : Bool :=
  (Dict.get? d k).isSome

/-- The decoded JSON body of an upstream response: the "direct" endpoint
returns a list of objects, the "zip" endpoint a single object. -/
inductive Body where
  | list (items : List Dict)
  | obj (fields : Dict)
deriving DecidableEq, Repr

/-- Python `not data` on the decoded body: an empty list or empty object. -/
def Body.isEmptyData : Body → Bool
  | .list items => items.isEmpty
  | .obj fields => fields.isEmpty

/-- The outcome of one `requests.get` call, as the `try` block observes it. -/
inductive HttpOutcome where
  | timeout
  | connectionError
  | httpResponse (status : Nat) (body : Body)
  | otherRequestException
deriving DecidableEq, Repr

/-- `fetch_api_data(endpoint, params)` given the transport outcome of its one
GET request: maps transport and HTTP-layer failures to error records, an
empty decoded body to the "No data" error record, and otherwise selects the
payload (`data[0]` for "direct", `data` itself for "zip").  `none` models an
uncaught exception (body shape outside the wire contract). -/
def fetch_api_data (endpoint : String) (outcome : HttpOutcome) : Option Dict :=
  match outcome with
  | .timeout => some [("error", .vStr "API request timed out")]
  | .connectionError => some [("error", .vStr "API connection failed")]
  | .otherRequestException => some [("error", .vStr "Unexpected API error")]
  | .httpResponse status body =>
    if 400 ≤ status ∧ status < 600 then
      if status == 401 then some [("error", .vStr "Invalid API key")]
      else if status == 429 then some [("error", .vStr "API rate limit exceeded")]
      else some [("error", .vStr ("API error: " ++ toString status))]
    else if body.isEmptyData then
      some [("error", .vStr "No data returned from API")]
    else if endpoint == "direct" then
      match body with
      | .list (first :: _) => some first
      | _ => none
    else
      match body with
      | .obj fields => some fields
      | .list _ => none

/-- One upstream request: the endpoint path segment and the query parameters
in insertion order, each serialised to its query-string text. -/
structure ApiRequest where
  endpoint : String
  params : List (String × String)
deriving DecidableEq, Repr

/-- The request built by `fetch_location_by_city_state(query)`:
`{'q': f'{query},US', 'limit': 1, 'appid': API_KEY}` against "direct"
(`limit` serialises as "1"). -/
def fetch_location_by_city_state_request (apiKey query : String) : ApiRequest :=
  ⟨"direct", [("q", query ++ ",US"), ("limit", "1"), ("appid", apiKey)]⟩

/-- The request built by `fetch_location_by_zip(zip_code)`:
`{'zip': f'{zip_code},US', 'appid': API_KEY}` against "zip". -/
def fetch_location_by_zip_request (apiKey zip_code : String) : ApiRequest :=
  ⟨"zip", [("zip", zip_code ++ ",US"), ("appid", apiKey)]⟩

/-- Python `str.strip()` on its ASCII fragment: drop leading and trailing
whitespace characters. -/
def py_strip (s : String) : String :=
  ⟨((s.data.dropWhile Char.isWhitespace).reverse.dropWhile Char.isWhitespace).reverse⟩

/-- Python `str.isdigit()` on its ASCII fragment: non-empty and every
character a decimal digit. -/
def py_isdigit (s : String) : Bool :=
  !s.data.isEmpty && s.data.all Char.isDigit

/-- The request `get_location_info(location)` sends: strip the input, then
dispatch on `location.isdigit() and len(location) == 5`. -/
def get_location_request (apiKey location : String) : ApiRequest :=
  let location := py_strip location
  if py_isdigit location && location.length == 5 then
    fetch_location_by_zip_request apiKey location
  else
    fetch_location_by_city_state_request apiKey location

/-- `get_location_info(location)` given the transport outcome of its upstream
call: dispatch, fetch, then either propagate an error record or build the
normalized record with per-field defaults. -/
def get_location_info (apiKey location : String) (outcome : HttpOutcome) :
    Option Dict :=
  (fetch_api_data (get_location_request apiKey location).endpoint outcome).map
    fun data =>
      if Dict.containsKey data "error" then data
      else
        [("name", Dict.getD data "name" (.vStr "")),
         ("lat", Dict.getD data "lat" (.vStr "")),
         ("lon", Dict.getD data "lon" (.vStr "")),
         ("state", Dict.getD data "state" (.vStr "")),
         ("country", Dict.getD data "country" (.vStr "US"))]

/-- `format_location(result)`: an error record renders as its message, a
location record as the `Location: ...` line; the `, {state}` segment appears
iff `result.get("state")` is truthy.  `none` models the `KeyError` raised
when a non-error record lacks `name`, `lat` or `lon`. -/
def format_location (result : Dict) : Option String :=
  if Dict.containsKey result "error" then
    (Dict.get? result "error").map Value.toStr
  else
    let state :=
      match Dict.get? result "state" with
      | some v => if v.truthy then ", " ++ v.toStr else ""
      | none => ""
    match Dict.get? result "name", Dict.get? result "lat",
        Dict.get? result "lon" with
    | some name, some lat, some lon =>
        some ("Location: " ++ name.toStr ++ state ++ " - Lat: " ++ lat.toStr
          ++ ", Lon: " ++ lon.toStr)
    | _, _, _ => none

/-- `process_locations(locations)`: one `get_location_info` per input, in
order; each input is paired with the transport outcome its own call saw. -/
def process_locations (apiKey : String) (jobs : List (String × HttpOutcome)) :
    List (Option Dict) :=
  jobs.map fun job => get_location_info apiKey job.1 job.2

/-- The lines `main` prints: `format_location` of each result, in order. -/
def main_output (apiKey : String) (jobs : List (String × HttpOutcome)) :
    List (Option String) :=
  (process_locations apiKey jobs).map fun result => result.bind format_location

/-- C7: a transport timeout yields the error record "API request timed out",
a connection failure "API connection failed", and any other request
exception "Unexpected API error", on either endpoint. -/
theorem c7_transport_error_mapping (endpoint : String) :
    fetch_api_data endpoint .timeout =
      some [("error", .vStr "API request timed out")] ∧
    fetch_api_data endpoint .connectionError =
      some [("error", .vStr "API connection failed")] ∧
    fetch_api_data endpoint .otherRequestException =
      some [("error", .vStr "Unexpected API error")] :=
  ⟨rfl, rfl, rfl⟩

/-- C2: every response with an HTTP error status (400 ≤ status < 600, the
range `raise_for_status` raises on) yields an error record whose message is
"Invalid API key" at 401, "API rate limit exceeded" at 429, and
"API error: {code}" with the decimal status code otherwise, regardless of
endpoint and body. -/
theorem c2_http_status_mapping (endpoint : String) (status : Nat) (body : Body)
    (h400 : 400 ≤ status) (h600 : status < 600) :
    fetch_api_data endpoint (.httpResponse status body) =
      some [("error", .vStr
        (if status = 401 then "Invalid API key"
         else if status = 429 then "API rate limit exceeded"
         else "API error: " ++ toString status))] := by
  simp only [fetch_api_data, if_pos (And.intro h400 h600)]
  by_cases h1 : status = 401
  · simp [h1]
  · by_cases h2 : status = 429
    · simp [h1, h2]
    · simp [h1, h2]

/-- Witness for C2 at status 500 on the "direct" endpoint. -/
theorem c2_http_status_mapping_witness :
    fetch_api_data "direct" (.httpResponse 500 (.list [])) =
      some [("error", .vStr "API error: 500")] := by
  simpa using c2_http_status_mapping "direct" 500 (.list [])
    (by decide) (by decide)

/-- C3: every response with a non-error status (< 400) whose decoded body is
empty (the empty list or the empty object) yields the error record
"No data returned from API", on either endpoint. -/
theorem c3_empty_payload (endpoint : String) (status : Nat) (body : Body)
    (hs : status < 400) (hb : body.isEmptyData = true) :
    fetch_api_data endpoint (.httpResponse status body) =
      some [("error", .vStr "No data returned from API")] := by
  have hnot : ¬(400 ≤ status ∧ status < 600) := by omega
  simp [fetch_api_data, if_neg hnot, hb]

/-- Witness for C3: status 200 with an empty list on "direct" and an empty
object on "zip". -/
theorem c3_empty_payload_witness :
    fetch_api_data "direct" (.httpResponse 200 (.list [])) =
      some [("error", .vStr "No data returned from API")] ∧
    fetch_api_data "zip" (.httpResponse 200 (.obj [])) =
      some [("error", .vStr "No data returned from API")] :=
  ⟨c3_empty_payload "direct" 200 (.list []) (by decide) (by decide),
   c3_empty_payload "zip" 200 (.obj []) (by decide) (by decide)⟩

/-- C4: every response with a non-error status (< 400) and a non-empty body
succeeds: the "direct" endpoint yields the first element of the returned
list, the "zip" endpoint the returned object itself. -/
theorem c4_success_payload (status : Nat) (hs : status < 400) :
    (∀ first rest, fetch_api_data "direct"
        (.httpResponse status (.list (first :: rest))) = some first) ∧
    (∀ fields, fields ≠ [] → fetch_api_data "zip"
        (.httpResponse status (.obj fields)) = some fields) := by
  have hnot : ¬(400 ≤ status ∧ status < 600) := by omega
  constructor
  · intro first rest
    simp [fetch_api_data, if_neg hnot, Body.isEmptyData]
  · intro fields hne
    simp [fetch_api_data, if_neg hnot, Body.isEmptyData, hne]

/-- Witness for C4 at status 200 with concrete bodies on both endpoints. -/
theorem c4_success_payload_witness :
    fetch_api_data "direct" (.httpResponse 200
        (.list [[("name", .vStr "Madison")], [("name", .vStr "Other")]])) =
      some [("name", .vStr "Madison")] ∧
    fetch_api_data "zip" (.httpResponse 200 (.obj [("name", .vStr "Madison")])) =
      some [("name", .vStr "Madison")] :=
  ⟨(c4_success_payload 200 (by decide)).1 [("name", .vStr "Madison")]
      [[("name", .vStr "Other")]],
   (c4_success_payload 200 (by decide)).2 [("name", .vStr "Madison")]
      (by decide)⟩

/-- The dispatch test of `get_location_info`, reduced to the spec's phrasing:
the stripped input has exactly 5 characters, all decimal digits. -/
theorem zip_dispatch_iff (t : String) :
    (py_isdigit t && t.length == 5) = true ↔
      t.data.length = 5 ∧ t.data.all Char.isDigit = true := by
  constructor
  · intro h
    simp only [py_isdigit, Bool.and_eq_true, beq_iff_eq, Bool.not_eq_true'] at h
    exact ⟨h.2, h.1.2⟩
  · intro h
    have hne : t.data ≠ [] := by
      intro hnil
      rw [hnil] at h
      simp at h
    simp only [py_isdigit, Bool.and_eq_true, beq_iff_eq]
    exact ⟨⟨by simp [hne], h.2⟩, h.1⟩

/-- C1: an input is dispatched to the "zip" endpoint iff its stripped form
has exactly 5 characters, all decimal digits; every other input goes to the
"direct" (city/state) endpoint, and the classification is total. -/
theorem c1_input_classification (apiKey location : String) :
    ((get_location_request apiKey location).endpoint = "zip" ↔
      ((py_strip location).data.length = 5 ∧
        (py_strip location).data.all Char.isDigit = true)) ∧
    ((get_location_request apiKey location).endpoint = "direct" ↔
      ¬((py_strip location).data.length = 5 ∧
        (py_strip location).data.all Char.isDigit = true)) := by
  unfold get_location_request
  by_cases h : (py_isdigit (py_strip location) && (py_strip location).length == 5) = true
  · rw [if_pos h]
    rw [zip_dispatch_iff] at h
    refine ⟨iff_of_true rfl h, iff_of_false ?_ (not_not_intro h)⟩
    intro hc
    simp [fetch_location_by_zip_request] at hc
  · rw [if_neg h]
    rw [zip_dispatch_iff] at h
    refine ⟨iff_of_false ?_ h, iff_of_true rfl h⟩
    intro hc
    simp [fetch_location_by_city_state_request] at hc

/-- Witness for C1: " 53703 " (5 digits after stripping) goes to "zip";
"Madison, WI" and the 4- and 6-digit strings "1234", "123456" go to
"direct". -/
theorem c1_input_classification_witness :
    (get_location_request "KEY" " 53703 ").endpoint = "zip" ∧
    (get_location_request "KEY" "Madison, WI").endpoint = "direct" ∧
    (get_location_request "KEY" "1234").endpoint = "direct" ∧
    (get_location_request "KEY" "123456").endpoint = "direct" :=
  ⟨(c1_input_classification "KEY" " 53703 ").1.mpr (by decide),
   (c1_input_classification "KEY" "Madison, WI").2.mpr (by decide),
   (c1_input_classification "KEY" "1234").2.mpr (by decide),
   (c1_input_classification "KEY" "123456").2.mpr (by decide)⟩

/-- C8: a zip-classified input yields the request
`zip?zip=<input>,US&appid=<key>`; every other input yields
`direct?q=<input>,US&limit=1&appid=<key>`, with `<input>` the stripped
string. -/
theorem c8_query_building (apiKey location : String) :
    (((py_strip location).data.length = 5 ∧
        (py_strip location).data.all Char.isDigit = true) →
      get_location_request apiKey location =
        ⟨"zip", [("zip", py_strip location ++ ",US"), ("appid", apiKey)]⟩) ∧
    (¬((py_strip location).data.length = 5 ∧
        (py_strip location).data.all Char.isDigit = true) →
      get_location_request apiKey location =
        ⟨"direct", [("q", py_strip location ++ ",US"), ("limit", "1"),
          ("appid", apiKey)]⟩) := by
  constructor
  · intro h
    rw [← zip_dispatch_iff] at h
    unfold get_location_request
    rw [if_pos h]
    rfl
  · intro h
    rw [← zip_dispatch_iff] at h
    unfold get_location_request
    rw [if_neg h]
    rfl

/-- Witness for C8 on " 53703 " and "Madison, WI". -/
theorem c8_query_building_witness :
    get_location_request "KEY" " 53703 " =
      ⟨"zip", [("zip", "53703,US"), ("appid", "KEY")]⟩ ∧
    get_location_request "KEY" "Madison, WI" =
      ⟨"direct", [("q", "Madison, WI,US"), ("limit", "1"), ("appid", "KEY")]⟩ :=
  ⟨(c8_query_building "KEY" " 53703 ").1 (by decide),
   (c8_query_building "KEY" "Madison, WI").2 (by decide)⟩

/-- C5: an error record coming back from the upstream call is returned by
`get_location_info` unchanged; a successful payload becomes a record whose
fields are the payload's "name", "lat", "lon" and "state" fields (default
the empty string) and "country" field (default "US"), with no validation of
the latitude/longitude values. -/
theorem c5_normalization (apiKey location : String) (outcome : HttpOutcome)
    (data : Dict)
    (hf : fetch_api_data (get_location_request apiKey location).endpoint
        outcome = some data) :
    (Dict.containsKey data "error" = true →
      get_location_info apiKey location outcome = some data) ∧
    (Dict.containsKey data "error" = false →
      ∃ rec, get_location_info apiKey location outcome = some rec ∧
        Dict.get? rec "name" = some (Dict.getD data "name" (.vStr "")) ∧
        Dict.get? rec "lat" = some (Dict.getD data "lat" (.vStr "")) ∧
        Dict.get? rec "lon" = some (Dict.getD data "lon" (.vStr "")) ∧
        Dict.get? rec "state" = some (Dict.getD data "state" (.vStr "")) ∧
        Dict.get? rec "country" = some (Dict.getD data "country" (.vStr "US"))) := by
  constructor
  · intro he
    simp [get_location_info, hf, he]
  · intro he
    refine ⟨[("name", Dict.getD data "name" (.vStr "")),
      ("lat", Dict.getD data "lat" (.vStr "")),
      ("lon", Dict.getD data "lon" (.vStr "")),
      ("state", Dict.getD data "state" (.vStr "")),
      ("country", Dict.getD data "country" (.vStr "US"))],
      by simp [get_location_info, hf, he], rfl, rfl, rfl, rfl, rfl⟩

/-- Witness for C5: a timeout error record passes through unchanged; a
successful "direct" payload is normalized field by field. -/
theorem c5_normalization_witness :
    get_location_info "KEY" "Boston" .timeout =
      some [("error", .vStr "API request timed out")] ∧
    ∃ rec, get_location_info "KEY" "Madison, WI"
        (.httpResponse 200 (.list [[("name", .vStr "Madison"),
          ("lat", .vNum "43.07"), ("lon", .vNum "-89.4"),
          ("state", .vStr "WI"), ("country", .vStr "US")]])) = some rec ∧
      Dict.get? rec "name" = some (.vStr "Madison") ∧
      Dict.get? rec "lat" = some (.vNum "43.07") ∧
      Dict.get? rec "lon" = some (.vNum "-89.4") ∧
      Dict.get? rec "state" = some (.vStr "WI") ∧
      Dict.get? rec "country" = some (.vStr "US") :=
  ⟨(c5_normalization "KEY" "Boston" .timeout
      [("error", .vStr "API request timed out")] rfl).1 rfl,
   (c5_normalization "KEY" "Madison, WI"
      (.httpResponse 200 (.list [[("name", .vStr "Madison"),
        ("lat", .vNum "43.07"), ("lon", .vNum "-89.4"),
        ("state", .vStr "WI"), ("country", .vStr "US")]]))
      [("name", .vStr "Madison"), ("lat", .vNum "43.07"),
        ("lon", .vNum "-89.4"), ("state", .vStr "WI"),
        ("country", .vStr "US")] rfl).2 rfl⟩

/-- C10: a result counts as an error exactly when it has an "error" key: a
successful payload that itself carries an "error" field is passed through
`get_location_info` unchanged, and `format_location` renders that field's
value instead of a "Location: ..." line. -/
theorem c10_error_key (apiKey location : String) (outcome : HttpOutcome)
    (data : Dict)
    (hf : fetch_api_data (get_location_request apiKey location).endpoint
        outcome = some data)
    (he : Dict.containsKey data "error" = true) :
    get_location_info apiKey location outcome = some data ∧
    format_location data = (Dict.get? data "error").map Value.toStr := by
  constructor
  · simp [get_location_info, hf, he]
  · simp [format_location, he]

/-- Witness for C10: a successful payload carrying an "error" field next to
a "name" field is not normalized, and formats as the "error" value. -/
theorem c10_error_key_witness :
    get_location_info "KEY" "Springfield"
        (.httpResponse 200 (.list [[("error", .vStr "odd payload"),
          ("name", .vStr "Springfield")]])) =
      some [("error", .vStr "odd payload"), ("name", .vStr "Springfield")] ∧
    format_location
        [("error", .vStr "odd payload"), ("name", .vStr "Springfield")] =
      some "odd payload" :=
  have h := c10_error_key "KEY" "Springfield"
    (.httpResponse 200 (.list [[("error", .vStr "odd payload"),
      ("name", .vStr "Springfield")]]))
    [("error", .vStr "odd payload"), ("name", .vStr "Springfield")] rfl rfl
  ⟨h.1, h.2⟩

/-- C6: `format_location` renders an error record as exactly its message,
and a location record as "Location: " + name + (", " + state when state is
non-empty) + " - Lat: " + latitude + ", Lon: " + longitude. -/
theorem c6_format_location (m : String) (name lat lon country : Value)
    (st : String) :
    format_location [("error", .vStr m)] = some m ∧
    format_location [("name", name), ("lat", lat), ("lon", lon),
        ("state", .vStr st), ("country", country)] =
      some ("Location: " ++ name.toStr ++
        (if st = "" then "" else ", " ++ st) ++
        " - Lat: " ++ lat.toStr ++ ", Lon: " ++ lon.toStr) := by
  constructor
  · rfl
  · by_cases h : st = ""
    · subst h
      rfl
    · simp [format_location, Dict.containsKey, Dict.get?, List.find?,
        Value.truthy, Value.toStr, h]

/-- C9: processing yields exactly one output line per input, in input
order, and line i is the formatted result of input i alone — an error on
one input never disturbs the others. -/
theorem c9_per_input_processing (apiKey : String)
    (jobs : List (String × HttpOutcome)) :
    (main_output apiKey jobs).length = jobs.length ∧
    ∀ i : Nat, (main_output apiKey jobs).get? i =
      (jobs.get? i).map fun job =>
        (get_location_info apiKey job.1 job.2).bind format_location := by
  constructor
  · simp [main_output, process_locations]
  · intro i
    simp only [main_output, process_locations, List.map_map,
      List.get?_eq_getElem?, List.getElem?_map]
    rfl
